import Mathlib

/-!
Shallow embedding of the `devasign` Soroban task-escrow contract
(`src/lib.rs`, `src/types.rs`, `src/errors.rs`) and proofs about its
escrow state machine.

Modelling conventions:
* Soroban `Address` values are modelled as natural numbers; the contract's
  own address and the null placeholder address are distinguished constants.
* `i128` amounts are modelled as `Int` (every amount admitted by
  `validate_amount` lies in `(0, 10^16]`, far inside the `i128` range, so
  no wraparound is reachable) and the `u64` task counter as `Nat` (the
  contract build enables overflow checks, so a successful call never wraps).
* Contract storage (instance + persistent scopes) is one record of optional
  fields and association lists; the external USDC token contract is a
  balance table carried alongside.  `token::transfer` is exact arithmetic on
  that table, guarded by the sender-balance pre-check the code performs.
* `require_auth` is an external host primitive that aborts the call when the
  signature is missing; the embedding over-approximates it as always granted
  (all safety claims proved here are about status and amount checks, and
  invariants proved over the larger set of behaviours also hold over the
  authorised subset).
* A Soroban contract call whose function returns `Err` is rolled back whole
  by the host, so every operation is `state → Except Error state`, the
  caller keeping the old state on `error`.
-/

deriving instance DecidableEq for Except

namespace TaskEscrowContract

/-- Soroban addresses, modelled as naturals. -/
abbrev Address := Nat

/-- Task identifiers (Soroban `String`). -/
abbrev TaskId := String

/-- The placeholder written into `contributor` before assignment
(`Address::from_string("GAAA…WHF")` in `create_escrow`). -/
def nullAddress : Address := 0

/-- The contract's own address (`env.current_contract_address()`). -/
def contractAddress : Address := 1

/-- Error codes from `src/errors.rs`.  `ContractPaused` does not appear in
the copy of `errors.rs` under `src/`; it is referenced by the repository's
pause tests and the spec, and is included here for the spec-modelled pause
gate. -/
inductive Error where
  | TaskNotFound
  | TaskAlreadyExists
  | InvalidTaskStatus
  | ContractNotInitialized
  | Unauthorized
  | NotTaskCreator
  | NotTaskContributor
  | NotAdmin
  | OnlyCreatorOrContributor
  | ContributorAlreadyAssigned
  | NoContributorAssigned
  | InsufficientBalance
  | TaskNotCompleted
  | TaskNotDisputed
  | TaskAlreadyResolved
  | CannotRefundWithContributor
  | TokenTransferFailed
  | InvalidTokenAmount
  | TokenContractNotSet
  | InvalidTaskId
  | InvalidAddress
  | InvalidAmount
  | InvalidDisputeReason
  | EmptyTaskId
  | TaskIdTooShort
  | TaskIdTooLong
  | InvalidTaskIdCharacters
  | AmountTooSmall
  | DisputeReasonTooShort
  | InvalidIssueUrl
  | ContractPaused
  deriving DecidableEq, Repr

/-- `TaskStatus` from `src/types.rs`. -/
inductive TaskStatus where
  | Open
  | InProgress
  | Completed
  | Disputed
  | Resolved
  | Cancelled
  deriving DecidableEq, Repr

/-- `TaskEscrow` from `src/types.rs`.  The record literal built by
`create_escrow` in `src/lib.rs` additionally carries the `issue_url` field,
so it is included here. -/
structure TaskEscrow where
  task_id : TaskId
  issue_url : String
  creator : Address
  contributor : Address
  has_contributor : Bool
  bounty_amount : Int
  status : TaskStatus
  created_at : Nat
  completed_at : Nat
  disputed_at : Nat
  deriving DecidableEq, Repr

/-- `DisputeInfo` from `src/types.rs`. -/
structure DisputeInfo where
  task_id : TaskId
  disputing_party : Address
  reason : String
  initiated_at : Nat
  deriving DecidableEq, Repr

/-- `DisputeResolution` from `src/types.rs`. -/
inductive DisputeResolution where
  | PayContributor
  | RefundCreator
  | PartialPayment (amount : Int)
  deriving DecidableEq, Repr

/-- Association-list update used to model `storage().set`: any previous
binding for the key is removed. -/
def assocSet {α : Type} [DecidableEq α] {β : Type}
    (l : List (α × β)) (k : α) (v : β) : List (α × β) :=
  (k, v) :: l.filter (fun p => p.1 ≠ k)

/-- Association-list lookup used to model `storage().get`. -/
def assocGet {α : Type} [DecidableEq α] {β : Type}
    (l : List (α × β)) (k : α) : Option β :=
  match l with
  | [] => none
  | (k2, v) :: rest => if k = k2 then some v else assocGet rest k

/-- Contract storage plus the external token contract's balance table.
Fields `admin`, `usdcToken`, `taskCount` model the instance-scope keys
`DataKey::Admin`, `DataKey::UsdcToken`, `DataKey::TaskCount` (`none` =
absent); `escrows` and `disputes` model the persistent scope maps; `token`
models the external USDC token contract balances. -/
structure ContractState where
  admin : Option Address
  usdcToken : Option Address
  taskCount : Option Nat
  escrows : List (TaskId × TaskEscrow)
  disputes : List (TaskId × DisputeInfo)
  token : List (Address × Int)
  deriving DecidableEq, Repr

/-- Storage before the contract is deployed/initialized; the external token
table `tok` is arbitrary. -/
def emptyState (tok : List (Address × Int)) : ContractState :=
  { admin := none, usdcToken := none, taskCount := none,
    escrows := [], disputes := [], token := tok }

/-- Balance of `a` in the external token contract (absent = 0). -/
def getBalance (tok : List (Address × Int)) (a : Address) : Int :=
  (assocGet tok a).getD 0

/-- The external token contract's `transfer`: exact balance bookkeeping. -/
def tokenTransfer (tok : List (Address × Int)) (src dst : Address)
    (amount : Int) : List (Address × Int) :=
  let afterSrc := assocSet tok src (getBalance tok src - amount)
  assocSet afterSrc dst (getBalance afterSrc dst + amount)

/-- `lib.rs::validate_task_id`. -/
def validate_task_id (task_id : TaskId) : Except Error Unit :=
  if task_id.length = 0 then .error .EmptyTaskId
  else if task_id.length ≠ 25 then .error .InvalidTaskId
  else .ok ()

/-- `lib.rs::validate_issue_url`. -/
def validate_issue_url (url : String) : Except Error Unit :=
  if url.length = 0 then .error .InvalidIssueUrl
  else if url.length > 500 then .error .InvalidIssueUrl
  else .ok ()

/-- `lib.rs::validate_amount`.  The final `amount % 1 != 0` check of the
source is kept verbatim (it never fires on integers). -/
def validate_amount (amount : Int) : Except Error Unit :=
  if amount ≤ 0 then .error .InvalidAmount
  else if amount < 100000 then .error .InvalidAmount
  else if amount > 10000000000000000 then .error .InvalidTokenAmount
  else if amount % 1 ≠ 0 then .error .InvalidTokenAmount
  else .ok ()

/-- `lib.rs::validate_dispute_reason`. -/
def validate_dispute_reason (reason : String) : Except Error Unit :=
  if reason.length = 0 then .error .InvalidDisputeReason
  else if reason.length < 10 then .error .InvalidDisputeReason
  else if reason.length > 500 then .error .InvalidDisputeReason
  else .ok ()

/-- `lib.rs::validate_address` (a no-op in the source). -/
def validate_address (_address : Address) : Except Error Unit := .ok ()

/-- `lib.rs::validate_partial_payment`. -/
def validate_partial_payment (partial_amount total_amount : Int) :
    Except Error Unit :=
  match validate_amount partial_amount with
  | .error e => .error e
  | .ok _ =>
    if partial_amount > total_amount then .error .InvalidTokenAmount
    else
      let minimum_partial := total_amount / 100
      if partial_amount < minimum_partial then .error .InvalidTokenAmount
      else if total_amount - partial_amount < minimum_partial then
        .error .InvalidTokenAmount
      else .ok ()

/-- `lib.rs::is_initialized`. -/
def is_initialized (st : ContractState) : Bool :=
  st.admin.isSome && st.usdcToken.isSome

/-- `lib.rs::validate_contract_state` (the two `validate_address` calls of
the source are no-ops). -/
def validate_contract_state (st : ContractState) : Except Error Unit :=
  if ¬ is_initialized st then .error .ContractNotInitialized
  else
    match st.admin with
    | none => .error .ContractNotInitialized
    | some _ =>
      match st.usdcToken with
      | none => .error .TokenContractNotSet
      | some _ => .ok ()

/-- `lib.rs::require_admin`: the admin key must be present; the host-level
`require_auth` on it is modelled as granted. -/
def require_admin (st : ContractState) : Except Error Unit :=
  match st.admin with
  | none => .error .ContractNotInitialized
  | some _ => .ok ()

/-- `lib.rs::transfer_usdc_safe`: validates the amount, requires the token
contract to be configured, pre-checks the sender balance, then transfers. -/
def transfer_usdc_safe (st : ContractState) (src dst : Address)
    (amount : Int) : Except Error ContractState :=
  match validate_amount amount with
  | .error e => .error e
  | .ok _ =>
    match st.usdcToken with
    | none => .error .TokenContractNotSet
    | some _ =>
      if getBalance st.token src < amount then .error .InsufficientBalance
      else .ok { st with token := tokenTransfer st.token src dst amount }

/-- `lib.rs::transfer_usdc_to_contract`. -/
def transfer_usdc_to_contract (st : ContractState) (src : Address)
    (amount : Int) : Except Error ContractState :=
  transfer_usdc_safe st src contractAddress amount

/-- `lib.rs::transfer_usdc_from_contract`. -/
def transfer_usdc_from_contract (st : ContractState) (dst : Address)
    (amount : Int) : Except Error ContractState :=
  transfer_usdc_safe st contractAddress dst amount

/-- `lib.rs::task_exists`. -/
def task_exists (st : ContractState) (task_id : TaskId) : Bool :=
  (assocGet st.escrows task_id).isSome

/-- `lib.rs::initialize` (renamed: `initialize` is a Lean keyword). -/
def initializeContract (st : ContractState) (admin usdc_token : Address) :
    Except Error ContractState :=
  if st.admin.isSome then .error .TaskAlreadyExists
  else .ok { st with admin := some admin, usdcToken := some usdc_token,
                     taskCount := some 0 }

/-- `lib.rs::set_admin`. -/
def set_admin (st : ContractState) (new_admin : Address) :
    Except Error ContractState :=
  match require_admin st with
  | .error e => .error e
  | .ok _ => .ok { st with admin := some new_admin }

/-- `lib.rs::update_usdc_token`. -/
def update_usdc_token (st : ContractState) (new_usdc_token : Address) :
    Except Error ContractState :=
  match require_admin st with
  | .error e => .error e
  | .ok _ => .ok { st with usdcToken := some new_usdc_token }

/-- `lib.rs::get_task_count` (`unwrap_or(0)` in the source: total, never an
error). -/
def get_task_count (st : ContractState) : Nat :=
  st.taskCount.getD 0

/-- `lib.rs::get_escrow`. -/
def get_escrow (st : ContractState) (task_id : TaskId) :
    Except Error TaskEscrow :=
  match validate_task_id task_id with
  | .error e => .error e
  | .ok _ =>
    match assocGet st.escrows task_id with
    | none => .error .TaskNotFound
    | some e => .ok e

/-- The escrow record literal built by `lib.rs::create_escrow`. -/
def newEscrow (creator : Address) (task_id : TaskId) (issue_url : String)
    (bounty_amount : Int) (now : Nat) : TaskEscrow :=
  { task_id := task_id, issue_url := issue_url, creator := creator,
    contributor := nullAddress, has_contributor := false,
    bounty_amount := bounty_amount, status := .Open,
    created_at := now, completed_at := 0, disputed_at := 0 }

/-- `lib.rs::create_escrow` (check order as in the source; `now` is the
ledger timestamp). -/
def create_escrow (st : ContractState) (creator : Address)
    (task_id : TaskId) (issue_url : String) (bounty_amount : Int)
    (now : Nat) : Except Error ContractState :=
  match validate_contract_state st with
  | .error e => .error e
  | .ok _ =>
  match validate_task_id task_id with
  | .error e => .error e
  | .ok _ =>
  match validate_issue_url issue_url with
  | .error e => .error e
  | .ok _ =>
  match validate_amount bounty_amount with
  | .error e => .error e
  | .ok _ =>
  if task_exists st task_id then .error .TaskAlreadyExists
  else
    match transfer_usdc_to_contract st creator bounty_amount with
    | .error e => .error e
    | .ok st2 =>
      let escrow := newEscrow creator task_id issue_url bounty_amount now
      .ok { st2 with
              escrows := (assocSet st2.escrows task_id escrow),
              taskCount := some (get_task_count st2 + 1) }

/-- `lib.rs::assign_contributor`.  As in the source, only the
`has_contributor` flag is checked — not `status`. -/
def assign_contributor (st : ContractState) (task_id : TaskId)
    (contributor : Address) : Except Error ContractState :=
  match validate_contract_state st with
  | .error e => .error e
  | .ok _ =>
  match validate_task_id task_id with
  | .error e => .error e
  | .ok _ =>
  match assocGet st.escrows task_id with
  | none => .error .TaskNotFound
  | some escrow =>
    if escrow.has_contributor then .error .ContributorAlreadyAssigned
    else
      let updated := { escrow with contributor := contributor,
                                   has_contributor := true,
                                   status := TaskStatus.InProgress }
      .ok { st with escrows := (assocSet st.escrows task_id updated) }

/-- `lib.rs::complete_task`. -/
def complete_task (st : ContractState) (task_id : TaskId) (now : Nat) :
    Except Error ContractState :=
  match validate_contract_state st with
  | .error e => .error e
  | .ok _ =>
  match validate_task_id task_id with
  | .error e => .error e
  | .ok _ =>
  match assocGet st.escrows task_id with
  | none => .error .TaskNotFound
  | some escrow =>
    if escrow.status ≠ .InProgress then .error .InvalidTaskStatus
    else if ¬ escrow.has_contributor then .error .NoContributorAssigned
    else
      let updated := { escrow with status := TaskStatus.Completed,
                                   completed_at := now }
      .ok { st with escrows := (assocSet st.escrows task_id updated) }

/-- `lib.rs::approve_completion`. -/
def approve_completion (st : ContractState) (task_id : TaskId) :
    Except Error ContractState :=
  match validate_contract_state st with
  | .error e => .error e
  | .ok _ =>
  match validate_task_id task_id with
  | .error e => .error e
  | .ok _ =>
  match assocGet st.escrows task_id with
  | none => .error .TaskNotFound
  | some escrow =>
    if escrow.status ≠ .Completed then .error .TaskNotCompleted
    else if ¬ escrow.has_contributor then .error .NoContributorAssigned
    else
      match transfer_usdc_from_contract st escrow.contributor
              escrow.bounty_amount with
      | .error e => .error e
      | .ok st2 =>
        let updated := { escrow with status := TaskStatus.Resolved }
        .ok { st2 with escrows := (assocSet st2.escrows task_id updated) }

/-- `lib.rs::dispute_task`. -/
def dispute_task (st : ContractState) (disputing_party : Address)
    (task_id : TaskId) (reason : String) (now : Nat) :
    Except Error ContractState :=
  match validate_contract_state st with
  | .error e => .error e
  | .ok _ =>
  match validate_task_id task_id with
  | .error e => .error e
  | .ok _ =>
  match validate_dispute_reason reason with
  | .error e => .error e
  | .ok _ =>
  match assocGet st.escrows task_id with
  | none => .error .TaskNotFound
  | some escrow =>
    if ¬ escrow.has_contributor then .error .NoContributorAssigned
    else if escrow.status = .Resolved ∨ escrow.status = .Disputed ∨
            escrow.status = .Cancelled then .error .TaskAlreadyResolved
    else if ¬ (disputing_party = escrow.creator ∨
               (escrow.has_contributor ∧
                disputing_party = escrow.contributor)) then
      .error .OnlyCreatorOrContributor
    else
      let info : DisputeInfo :=
        { task_id := task_id, disputing_party := disputing_party,
          reason := reason, initiated_at := now }
      let updated := { escrow with status := TaskStatus.Disputed,
                                   disputed_at := now }
      .ok { st with
              disputes := (assocSet st.disputes task_id info),
              escrows := (assocSet st.escrows task_id updated) }

/-- `lib.rs::resolve_dispute`. -/
def resolve_dispute (st : ContractState) (task_id : TaskId)
    (resolution : DisputeResolution) : Except Error ContractState :=
  match validate_contract_state st with
  | .error e => .error e
  | .ok _ =>
  match validate_task_id task_id with
  | .error e => .error e
  | .ok _ =>
  match require_admin st with
  | .error e => .error e
  | .ok _ =>
  match assocGet st.escrows task_id with
  | none => .error .TaskNotFound
  | some escrow =>
    if escrow.status ≠ .Disputed then .error .TaskNotDisputed
    else if ¬ escrow.has_contributor then .error .NoContributorAssigned
    else
      let afterTransfers : Except Error ContractState :=
        match resolution with
        | .PayContributor =>
          transfer_usdc_from_contract st escrow.contributor
            escrow.bounty_amount
        | .RefundCreator =>
          transfer_usdc_from_contract st escrow.creator escrow.bounty_amount
        | .PartialPayment amount =>
          match validate_partial_payment amount escrow.bounty_amount with
          | .error e => .error e
          | .ok _ =>
            match transfer_usdc_from_contract st escrow.contributor
                    amount with
            | .error e => .error e
            | .ok st2 =>
              transfer_usdc_from_contract st2 escrow.creator
                (escrow.bounty_amount - amount)
      match afterTransfers with
      | .error e => .error e
      | .ok st2 =>
        let updated := { escrow with status := TaskStatus.Resolved }
        .ok { st2 with escrows := (assocSet st2.escrows task_id updated) }

/-- `lib.rs::refund`. -/
def refund (st : ContractState) (task_id : TaskId) :
    Except Error ContractState :=
  match validate_contract_state st with
  | .error e => .error e
  | .ok _ =>
  match validate_task_id task_id with
  | .error e => .error e
  | .ok _ =>
  match assocGet st.escrows task_id with
  | none => .error .TaskNotFound
  | some escrow =>
    if escrow.has_contributor then .error .ContributorAlreadyAssigned
    else if escrow.status ≠ .Open then .error .InvalidTaskStatus
    else
      match transfer_usdc_from_contract st escrow.creator
              escrow.bounty_amount with
      | .error e => .error e
      | .ok st2 =>
        let updated := { escrow with status := TaskStatus.Cancelled }
        .ok { st2 with escrows := (assocSet st2.escrows task_id updated) }

/-- `lib.rs::get_dispute_info`. -/
def get_dispute_info (st : ContractState) (task_id : TaskId) :
    Except Error DisputeInfo :=
  match validate_contract_state st with
  | .error e => .error e
  | .ok _ =>
  match validate_task_id task_id with
  | .error e => .error e
  | .ok _ =>
  if ¬ task_exists st task_id then .error .TaskNotFound
  else
    match assocGet st.disputes task_id with
    | none => .error .TaskNotDisputed
    | some info => .ok info

/-- Modelled from the spec: the repository's `paused` kill-switch flag is
missing from the copy of the source under `src/` (only the pause tests and
the spec describe it).  Per the spec, `paused` lives in the instance
storage next to the admin data; it is modelled here as a flag wrapped
around the core storage. -/
structure PausedState where
  paused : Bool
  core : ContractState
  deriving DecidableEq, Repr

/-- Modelled from the spec: `set_paused(bool)` is admin-only and missing
from the source under `src/`; it stores the flag. -/
def set_paused (ps : PausedState) (value : Bool) : Except Error PausedState :=
  match require_admin ps.core with
  | .error e => .error e
  | .ok _ => .ok { ps with paused := value }

/-- Modelled from the spec: while `paused` is true every state-mutating
operation fails fast with `ContractPaused` before any other check; the
gate wraps each core operation. -/
def withPauseGate (ps : PausedState)
    (run : ContractState → Except Error ContractState) :
    Except Error PausedState :=
  if ps.paused then .error .ContractPaused
  else
    match run ps.core with
    | .error e => .error e
    | .ok st2 => .ok { ps with core := st2 }

/-- Modelled from the spec: pause-gated `create_escrow`. -/
def paused_create_escrow (ps : PausedState) (creator : Address)
    (task_id : TaskId) (issue_url : String) (bounty_amount : Int)
    (now : Nat) : Except Error PausedState :=
  withPauseGate ps
    (fun st => create_escrow st creator task_id issue_url bounty_amount now)

/-- Modelled from the spec: pause-gated `assign_contributor`. -/
def paused_assign_contributor (ps : PausedState) (task_id : TaskId)
    (contributor : Address) : Except Error PausedState :=
  withPauseGate ps (fun st => assign_contributor st task_id contributor)

/-- Modelled from the spec: pause-gated `complete_task`. -/
def paused_complete_task (ps : PausedState) (task_id : TaskId) (now : Nat) :
    Except Error PausedState :=
  withPauseGate ps (fun st => complete_task st task_id now)

/-- Modelled from the spec: pause-gated `approve_completion`. -/
def paused_approve_completion (ps : PausedState) (task_id : TaskId) :
    Except Error PausedState :=
  withPauseGate ps (fun st => approve_completion st task_id)

/-- Modelled from the spec: pause-gated `dispute_task`. -/
def paused_dispute_task (ps : PausedState) (disputing_party : Address)
    (task_id : TaskId) (reason : String) (now : Nat) :
    Except Error PausedState :=
  withPauseGate ps
    (fun st => dispute_task st disputing_party task_id reason now)

/-- Modelled from the spec: pause-gated `resolve_dispute`. -/
def paused_resolve_dispute (ps : PausedState) (task_id : TaskId)
    (resolution : DisputeResolution) : Except Error PausedState :=
  withPauseGate ps (fun st => resolve_dispute st task_id resolution)

/-- Modelled from the spec: pause-gated `refund`. -/
def paused_refund (ps : PausedState) (task_id : TaskId) :
    Except Error PausedState :=
  withPauseGate ps (fun st => refund st task_id)

/-- Modelled from the spec: the ungated body of
`increase_bounty(creator, task_id, amount)`, which is missing from the
source under `src/` (only its tests are present).  Per the spec table:
status must be Open, the caller must be the creator, the amount must pass
the amount validation; the delta is moved from the caller into the
contract and `bounty_amount` is updated in lock-step. -/
def increase_bounty_core (st : ContractState) (caller : Address)
    (task_id : TaskId) (amount : Int) : Except Error ContractState :=
  match validate_contract_state st with
  | .error e => .error e
  | .ok _ =>
  match validate_task_id task_id with
  | .error e => .error e
  | .ok _ =>
  match assocGet st.escrows task_id with
  | none => .error .TaskNotFound
  | some escrow =>
    if caller ≠ escrow.creator then .error .NotTaskCreator
    else if escrow.status ≠ .Open then .error .InvalidTaskStatus
    else
      match validate_amount amount with
      | .error e => .error e
      | .ok _ =>
        match transfer_usdc_to_contract st caller amount with
        | .error e => .error e
        | .ok st2 =>
          let updated := { escrow with
            bounty_amount := escrow.bounty_amount + amount }
          .ok { st2 with
                  escrows := (assocSet st2.escrows task_id updated) }

/-- Modelled from the spec: pause-gated `increase_bounty`. -/
def increase_bounty (ps : PausedState) (caller : Address) (task_id : TaskId)
    (amount : Int) : Except Error PausedState :=
  withPauseGate ps (fun st => increase_bounty_core st caller task_id amount)

/-- Modelled from the spec: the ungated body of
`decrease_bounty(creator, task_id, amount)`, which is missing from the
source under `src/` (only its tests are present).  Per the spec table:
status must be Open, the caller must be the creator, the amount must pass
the amount validation and the remaining bounty must stay at or above the
100,000 base-unit minimum; the delta is moved from the contract back to
the caller and `bounty_amount` is updated in lock-step. -/
def decrease_bounty_core (st : ContractState) (caller : Address)
    (task_id : TaskId) (amount : Int) : Except Error ContractState :=
  match validate_contract_state st with
  | .error e => .error e
  | .ok _ =>
  match validate_task_id task_id with
  | .error e => .error e
  | .ok _ =>
  match assocGet st.escrows task_id with
  | none => .error .TaskNotFound
  | some escrow =>
    if caller ≠ escrow.creator then .error .NotTaskCreator
    else if escrow.status ≠ .Open then .error .InvalidTaskStatus
    else
      match validate_amount amount with
      | .error e => .error e
      | .ok _ =>
        if escrow.bounty_amount - amount < 100000 then
          .error .InvalidAmount
        else
          match transfer_usdc_from_contract st caller amount with
          | .error e => .error e
          | .ok st2 =>
            let updated := { escrow with
              bounty_amount := escrow.bounty_amount - amount }
            .ok { st2 with
                    escrows := (assocSet st2.escrows task_id updated) }

/-- Modelled from the spec: pause-gated `decrease_bounty`. -/
def decrease_bounty (ps : PausedState) (caller : Address) (task_id : TaskId)
    (amount : Int) : Except Error PausedState :=
  withPauseGate ps (fun st => decrease_bounty_core st caller task_id amount)

/-- The public state-mutating operations of the code under `src/`, with
their arguments (callers and ledger timestamps included). -/
inductive Op where
  | opInitialize (admin usdc : Address)
  | opSetAdmin (a : Address)
  | opUpdateUsdcToken (a : Address)
  | opCreateEscrow (creator : Address) (task_id : TaskId)
      (issue_url : String) (bounty : Int) (now : Nat)
  | opAssignContributor (task_id : TaskId) (c : Address)
  | opCompleteTask (task_id : TaskId) (now : Nat)
  | opApproveCompletion (task_id : TaskId)
  | opDisputeTask (party : Address) (task_id : TaskId) (reason : String)
      (now : Nat)
  | opResolveDispute (task_id : TaskId) (r : DisputeResolution)
  | opRefund (task_id : TaskId)
  deriving DecidableEq, Repr

/-- Dispatch of one public operation of the code. -/
def applyOp (st : ContractState) : Op → Except Error ContractState
  | .opInitialize a u => initializeContract st a u
  | .opSetAdmin a => set_admin st a
  | .opUpdateUsdcToken a => update_usdc_token st a
  | .opCreateEscrow c tid url b now => create_escrow st c tid url b now
  | .opAssignContributor tid c => assign_contributor st tid c
  | .opCompleteTask tid now => complete_task st tid now
  | .opApproveCompletion tid => approve_completion st tid
  | .opDisputeTask p tid r now => dispute_task st p tid r now
  | .opResolveDispute tid r => resolve_dispute st tid r
  | .opRefund tid => refund st tid

/-- States reachable from undeployed storage by successful public
operations; `tokenDrift` lets the external token contract's balances move
arbitrarily between calls (mints and third-party transfers). -/
inductive Reachable : ContractState → Prop where
  | start (tok : List (Address × Int)) : Reachable (emptyState tok)
  | step {st : ContractState} {op : Op} {st2 : ContractState} :
      Reachable st → applyOp st op = .ok st2 → Reachable st2
  | tokenDrift {st : ContractState} (tok : List (Address × Int)) :
      Reachable st → Reachable { st with token := tok }

/-- Apply a list of operations, a failed call leaving the state unchanged
(the host rolls back an erroring invocation). -/
def runOps (st : ContractState) : List Op → ContractState
  | [] => st
  | op :: rest =>
    match applyOp st op with
    | .error _ => runOps st rest
    | .ok st2 => runOps st2 rest

/-- Number of operations in the list that execute as successful
`create_escrow` calls when run from `st`. -/
def countCreates (st : ContractState) : List Op → Nat
  | [] => 0
  | op :: rest =>
    match applyOp st op with
    | .error _ => countCreates st rest
    | .ok st2 =>
      match op with
      | .opCreateEscrow _ _ _ _ _ => countCreates st2 rest + 1
      | _ => countCreates st2 rest

/-! ### Concrete states used to evaluate the operations

Addresses: 10 = admin, 11 = USDC token contract, 2 = creator,
3 = contributor, 4 = a stranger; `contractAddress` = 1. -/

def tidA : TaskId := "aaaaaaaaaaaaaaaaaaaaaaaaa"

def tidB : TaskId := "bbbbbbbbbbbbbbbbbbbbbbbbb"

/-- Extract the success state (the failure default is never used in the
concrete runs below, each step being proved to succeed). -/
def exOk (x : Except Error ContractState) : ContractState :=
  match x with
  | .ok st => st
  | .error _ => emptyState []

def demoToken : List (Address × Int) := [(2, 2000000)]

def demo0 : ContractState := emptyState demoToken

def demo1 : ContractState := exOk (initializeContract demo0 10 11)

def demo2 : ContractState := exOk (create_escrow demo1 2 tidA "u" 1000000 5)

def demo3 : ContractState := exOk (create_escrow demo2 2 tidB "u" 1000000 6)

def demo4 : ContractState := exOk (refund demo3 tidA)

def demo5 : ContractState := exOk (assign_contributor demo4 tidA 3)

def demo6 : ContractState := exOk (complete_task demo5 tidA 7)

def demo7 : ContractState := exOk (approve_completion demo6 tidA)

/-- The escrow stored under `tidA` after the refund in `demo4`. -/
def cancelledA : TaskEscrow :=
  { newEscrow 2 tidA "u" 1000000 5 with status := TaskStatus.Cancelled }

/-- A disputed escrow record used to exercise `resolve_dispute`. -/
def disputedE : TaskEscrow :=
  { newEscrow 2 tidA "u" 1000000 5 with
      contributor := 3,
      has_contributor := true,
      status := TaskStatus.Disputed }

/-- A contract state holding the disputed escrow, the contract funded with
its bounty. -/
def demoDisputed : ContractState :=
  { admin := some 10, usdcToken := some 11, taskCount := some 1,
    escrows := [(tidA, disputedE)], disputes := [],
    token := [(1, 1000000)] }

def demoResolved : ContractState :=
  exOk (resolve_dispute demoDisputed tidA (.PartialPayment 600000))

def demoAssigned : ContractState := exOk (assign_contributor demo3 tidA 3)

/-- A state with one open escrow, the creator holding 500000 base units and
the contract holding the bounty; used to exercise the bounty operations. -/
def demoOpenFunded : ContractState :=
  { admin := some 10, usdcToken := some 11, taskCount := some 1,
    escrows := [(tidA, newEscrow 2 tidA "u" 1000000 5)], disputes := [],
    token := [(2, 500000), (1, 1000000)] }

def demoPS : PausedState := { paused := false, core := demoOpenFunded }

def demoPSPaused : PausedState := { paused := true, core := demo1 }

/-! ### Basic lemmas about the storage model and the validators -/

theorem assocGet_filter {α : Type} [DecidableEq α] {β : Type}
    (l : List (α × β)) (k k2 : α) (hne : k2 ≠ k) :
    assocGet (l.filter (fun p => p.1 ≠ k)) k2 = assocGet l k2 := by
  induction l with
  | nil => rfl
  | cons p rest ih =>
    cases p with
    | mk k3 v =>
      simp only [List.filter_cons]
      by_cases hp : k3 = k
      · have hd : decide ((k3, v).1 ≠ k) = false := by simp [hp]
        rw [hd]
        simp only [Bool.false_eq_true, if_false]
        rw [ih]
        have hk2 : k2 ≠ k3 := by rw [hp]; exact hne
        simp [assocGet, hk2]
      · have hd : decide ((k3, v).1 ≠ k) = true := by simp [hp]
        rw [hd]
        simp only [if_true]
        simp only [assocGet]
        by_cases hk : k2 = k3
        · simp [hk]
        · simp only [hk, if_false]
          simpa using ih

theorem assocGet_assocSet {α : Type} [DecidableEq α] {β : Type}
    (l : List (α × β)) (k k2 : α) (v : β) :
    assocGet (assocSet l k v) k2 =
      if k2 = k then some v else assocGet l k2 := by
  unfold assocSet
  simp only [assocGet]
  by_cases hk : k2 = k
  · simp [hk]
  · simp only [hk, if_false]
    exact assocGet_filter l k k2 hk

theorem validate_task_id_ok {tid : TaskId} (h : tid.length = 25) :
    validate_task_id tid = .ok () := by
  unfold validate_task_id
  simp [h]

theorem validate_task_id_ok_inv {tid : TaskId} {u : Unit}
    (h : validate_task_id tid = .ok u) : tid.length = 25 := by
  unfold validate_task_id at h
  split at h
  · exact Except.noConfusion h
  · split at h
    · exact Except.noConfusion h
    · omega

theorem is_initialized_iff {st : ContractState} :
    is_initialized st = true ↔
      st.admin.isSome = true ∧ st.usdcToken.isSome = true := by
  unfold is_initialized
  simp

theorem validate_contract_state_ok {st : ContractState}
    (h : is_initialized st = true) :
    validate_contract_state st = .ok () := by
  have h2 := is_initialized_iff.mp h
  unfold validate_contract_state
  rcases Option.isSome_iff_exists.mp h2.1 with ⟨a, ha⟩
  rcases Option.isSome_iff_exists.mp h2.2 with ⟨u, hu⟩
  simp [h, ha, hu]

theorem validate_contract_state_ok_inv {st : ContractState} {u : Unit}
    (h : validate_contract_state st = .ok u) :
    is_initialized st = true := by
  unfold validate_contract_state at h
  split at h
  · exact Except.noConfusion h
  · simp_all

theorem require_admin_ok {st : ContractState}
    (h : st.admin.isSome = true) : require_admin st = .ok () := by
  rcases Option.isSome_iff_exists.mp h with ⟨a, ha⟩
  unfold require_admin
  simp [ha]

theorem transfer_usdc_safe_ok {st : ContractState} {src dst : Address}
    {a : Int} {st2 : ContractState}
    (h : transfer_usdc_safe st src dst a = .ok st2) :
    validate_amount a = .ok () ∧ st.usdcToken.isSome = true ∧
      a ≤ getBalance st.token src ∧
      st2 = { st with token := tokenTransfer st.token src dst a } := by
  unfold transfer_usdc_safe at h
  split at h
  · exact Except.noConfusion h
  next u heq =>
    cases u
    split at h
    · exact Except.noConfusion h
    next w hw =>
      split at h
      · exact Except.noConfusion h
      next hbal =>
        injection h with h2
        exact ⟨heq, by simp [hw], by omega, h2.symm⟩

theorem transfer_usdc_safe_ok_of {st : ContractState} {src dst : Address}
    {a : Int} (h1 : validate_amount a = .ok ())
    (h2 : st.usdcToken.isSome = true)
    (h3 : a ≤ getBalance st.token src) :
    transfer_usdc_safe st src dst a =
      .ok { st with token := tokenTransfer st.token src dst a } := by
  rcases Option.isSome_iff_exists.mp h2 with ⟨u, hu⟩
  unfold transfer_usdc_safe
  have : ¬ getBalance st.token src < a := by omega
  simp [h1, hu, this]

/-! ### Inversion lemmas: the exact shape of each successful operation -/

theorem initializeContract_ok {st : ContractState} {a u : Address}
    {st2 : ContractState} (h : initializeContract st a u = .ok st2) :
    st.admin = none ∧
      st2 = { st with admin := some a, usdcToken := some u,
                      taskCount := some 0 } := by
  unfold initializeContract at h
  split at h
  · exact Except.noConfusion h
  next hnone =>
    injection h with h2
    refine ⟨?_, h2.symm⟩
    cases ha : st.admin with
    | none => rfl
    | some a2 => rw [ha] at hnone; simp at hnone

theorem set_admin_ok {st : ContractState} {a : Address}
    {st2 : ContractState} (h : set_admin st a = .ok st2) :
    st.admin.isSome = true ∧ st2 = { st with admin := some a } := by
  unfold set_admin require_admin at h
  split at h
  · exact Except.noConfusion h
  next v heq =>
    split at heq
    · exact Except.noConfusion heq
    next b hb =>
      injection h with h2
      exact ⟨by simp [hb], h2.symm⟩

theorem update_usdc_token_ok {st : ContractState} {a : Address}
    {st2 : ContractState} (h : update_usdc_token st a = .ok st2) :
    st.admin.isSome = true ∧ st2 = { st with usdcToken := some a } := by
  unfold update_usdc_token require_admin at h
  split at h
  · exact Except.noConfusion h
  next v heq =>
    split at heq
    · exact Except.noConfusion heq
    next b hb =>
      injection h with h2
      exact ⟨by simp [hb], h2.symm⟩

theorem create_escrow_ok {st : ContractState} {creator : Address}
    {tid : TaskId} {url : String} {b : Int} {now : Nat}
    {st2 : ContractState}
    (h : create_escrow st creator tid url b now = .ok st2) :
    is_initialized st = true ∧ tid.length = 25 ∧
      validate_amount b = .ok () ∧ assocGet st.escrows tid = none ∧
      st2 = { st with
        token := tokenTransfer st.token creator contractAddress b,
        escrows := (assocSet st.escrows tid
          (newEscrow creator tid url b now)),
        taskCount := some (get_task_count st + 1) } := by
  unfold create_escrow at h
  split at h
  · exact Except.noConfusion h
  next u1 hvcs =>
  split at h
  · exact Except.noConfusion h
  next u2 hvtid =>
  split at h
  · exact Except.noConfusion h
  next u3 hurl =>
  split at h
  · exact Except.noConfusion h
  next u4 hamt =>
  split at h
  · exact Except.noConfusion h
  next hex =>
  split at h
  · exact Except.noConfusion h
  next st3 htr =>
    injection h with h2
    have hsafe := transfer_usdc_safe_ok htr
    have hst3 : st3 =
        { st with token := tokenTransfer st.token creator contractAddress b } :=
      hsafe.2.2.2
    subst hst3
    refine ⟨validate_contract_state_ok_inv hvcs,
            validate_task_id_ok_inv hvtid, ?_, ?_, ?_⟩
    · cases u4; exact hamt
    · unfold task_exists at hex
      simpa [Option.isSome_iff_exists, Option.eq_none_iff_forall_not_mem]
        using hex
    · rw [← h2]
      rfl

theorem assign_contributor_ok {st : ContractState} {tid : TaskId}
    {c : Address} {st2 : ContractState}
    (h : assign_contributor st tid c = .ok st2) :
    ∃ e, is_initialized st = true ∧ tid.length = 25 ∧
      assocGet st.escrows tid = some e ∧ e.has_contributor = false ∧
      st2 = { st with escrows := (assocSet st.escrows tid
        ({ e with contributor := c, has_contributor := true,
                  status := TaskStatus.InProgress })) } := by
  unfold assign_contributor at h
  split at h
  · exact Except.noConfusion h
  next u1 hvcs =>
  split at h
  · exact Except.noConfusion h
  next u2 hvtid =>
  split at h
  · exact Except.noConfusion h
  next e he =>
    split at h
    · exact Except.noConfusion h
    next hflag =>
      injection h with h2
      exact ⟨e, validate_contract_state_ok_inv hvcs,
             validate_task_id_ok_inv hvtid, he,
             by simpa using hflag, h2.symm⟩

theorem complete_task_ok {st : ContractState} {tid : TaskId} {now : Nat}
    {st2 : ContractState} (h : complete_task st tid now = .ok st2) :
    ∃ e, is_initialized st = true ∧ tid.length = 25 ∧
      assocGet st.escrows tid = some e ∧ e.status = .InProgress ∧
      e.has_contributor = true ∧
      st2 = { st with escrows := (assocSet st.escrows tid
        ({ e with status := TaskStatus.Completed,
                  completed_at := now })) } := by
  unfold complete_task at h
  split at h
  · exact Except.noConfusion h
  next u1 hvcs =>
  split at h
  · exact Except.noConfusion h
  next u2 hvtid =>
  split at h
  · exact Except.noConfusion h
  next e he =>
    split at h
    · exact Except.noConfusion h
    next hstat =>
      split at h
      · exact Except.noConfusion h
      next hflag =>
        injection h with h2
        exact ⟨e, validate_contract_state_ok_inv hvcs,
               validate_task_id_ok_inv hvtid, he,
               by simpa using hstat, by simpa using hflag, h2.symm⟩

theorem approve_completion_ok {st : ContractState} {tid : TaskId}
    {st2 : ContractState} (h : approve_completion st tid = .ok st2) :
    ∃ e, is_initialized st = true ∧ tid.length = 25 ∧
      assocGet st.escrows tid = some e ∧ e.status = .Completed ∧
      e.has_contributor = true ∧
      st2 = { st with
        token := tokenTransfer st.token contractAddress e.contributor
          e.bounty_amount,
        escrows := (assocSet st.escrows tid
          ({ e with status := TaskStatus.Resolved })) } := by
  unfold approve_completion at h
  split at h
  · exact Except.noConfusion h
  next u1 hvcs =>
  split at h
  · exact Except.noConfusion h
  next u2 hvtid =>
  split at h
  · exact Except.noConfusion h
  next e he =>
    split at h
    · exact Except.noConfusion h
    next hstat =>
      split at h
      · exact Except.noConfusion h
      next hflag =>
        split at h
        · exact Except.noConfusion h
        next st3 htr =>
          injection h with h2
          have hsafe := transfer_usdc_safe_ok htr
          have hst3 : st3 = { st with
              token := tokenTransfer st.token contractAddress e.contributor
                e.bounty_amount } := hsafe.2.2.2
          subst hst3
          refine ⟨e, validate_contract_state_ok_inv hvcs,
                  validate_task_id_ok_inv hvtid, he,
                  by simpa using hstat, by simpa using hflag, ?_⟩
          rw [← h2]

theorem dispute_task_ok {st : ContractState} {p : Address} {tid : TaskId}
    {reason : String} {now : Nat} {st2 : ContractState}
    (h : dispute_task st p tid reason now = .ok st2) :
    ∃ e, is_initialized st = true ∧ tid.length = 25 ∧
      assocGet st.escrows tid = some e ∧ e.has_contributor = true ∧
      e.status ≠ .Resolved ∧ e.status ≠ .Disputed ∧
      e.status ≠ .Cancelled ∧
      st2 = { st with
        disputes := (assocSet st.disputes tid
          ({ task_id := tid, disputing_party := p, reason := reason,
             initiated_at := now })),
        escrows := (assocSet st.escrows tid
          ({ e with status := TaskStatus.Disputed,
                    disputed_at := now })) } := by
  unfold dispute_task at h
  split at h
  · exact Except.noConfusion h
  next u1 hvcs =>
  split at h
  · exact Except.noConfusion h
  next u2 hvtid =>
  split at h
  · exact Except.noConfusion h
  next u3 hreason =>
  split at h
  · exact Except.noConfusion h
  next e he =>
    split at h
    · exact Except.noConfusion h
    next hflag =>
      split at h
      · exact Except.noConfusion h
      next hterm =>
        split at h
        · exact Except.noConfusion h
        next hparty =>
          injection h with h2
          push_neg at hterm
          exact ⟨e, validate_contract_state_ok_inv hvcs,
                 validate_task_id_ok_inv hvtid, he,
                 by simpa using hflag, hterm.1, hterm.2.1, hterm.2.2,
                 h2.symm⟩

theorem refund_ok {st : ContractState} {tid : TaskId}
    {st2 : ContractState} (h : refund st tid = .ok st2) :
    ∃ e, is_initialized st = true ∧ tid.length = 25 ∧
      assocGet st.escrows tid = some e ∧ e.has_contributor = false ∧
      e.status = .Open ∧
      st2 = { st with
        token := tokenTransfer st.token contractAddress e.creator
          e.bounty_amount,
        escrows := (assocSet st.escrows tid
          ({ e with status := TaskStatus.Cancelled })) } := by
  unfold refund at h
  split at h
  · exact Except.noConfusion h
  next u1 hvcs =>
  split at h
  · exact Except.noConfusion h
  next u2 hvtid =>
  split at h
  · exact Except.noConfusion h
  next e he =>
    split at h
    · exact Except.noConfusion h
    next hflag =>
      split at h
      · exact Except.noConfusion h
      next hstat =>
        split at h
        · exact Except.noConfusion h
        next st3 htr =>
          injection h with h2
          have hsafe := transfer_usdc_safe_ok htr
          have hst3 : st3 = { st with
              token := tokenTransfer st.token contractAddress e.creator
                e.bounty_amount } := hsafe.2.2.2
          subst hst3
          refine ⟨e, validate_contract_state_ok_inv hvcs,
                  validate_task_id_ok_inv hvtid, he,
                  by simpa using hflag, by simpa using hstat, ?_⟩
          rw [← h2]

theorem resolve_dispute_ok {st : ContractState} {tid : TaskId}
    {r : DisputeResolution} {st2 : ContractState}
    (h : resolve_dispute st tid r = .ok st2) :
    ∃ e tok2, is_initialized st = true ∧ tid.length = 25 ∧
      assocGet st.escrows tid = some e ∧ e.status = .Disputed ∧
      e.has_contributor = true ∧
      st2 = { st with
        token := tok2,
        escrows := (assocSet st.escrows tid
          ({ e with status := TaskStatus.Resolved })) } := by
  unfold resolve_dispute at h
  split at h
  · exact Except.noConfusion h
  next u1 hvcs =>
  split at h
  · exact Except.noConfusion h
  next u2 hvtid =>
  split at h
  · exact Except.noConfusion h
  next u3 hadm =>
  split at h
  · exact Except.noConfusion h
  next e he =>
    split at h
    · exact Except.noConfusion h
    next hstat =>
      split at h
      · exact Except.noConfusion h
      next hflag =>
        have hstat2 : e.status = .Disputed := by simpa using hstat
        have hflag2 : e.has_contributor = true := by simpa using hflag
        have hini := validate_contract_state_ok_inv hvcs
        have hlen := validate_task_id_ok_inv hvtid
        -- every resolution branch produces a token-only change before the
        -- common status update
        cases r with
        | PayContributor =>
          dsimp only at h
          split at h
          · exact Except.noConfusion h
          next st3 htr =>
            injection h with h2
            have hst3 := (transfer_usdc_safe_ok htr).2.2.2
            subst hst3
            exact ⟨e, _, hini, hlen, he, hstat2, hflag2, by rw [← h2]⟩
        | RefundCreator =>
          dsimp only at h
          split at h
          · exact Except.noConfusion h
          next st3 htr =>
            injection h with h2
            have hst3 := (transfer_usdc_safe_ok htr).2.2.2
            subst hst3
            exact ⟨e, _, hini, hlen, he, hstat2, hflag2, by rw [← h2]⟩
        | PartialPayment amt =>
          dsimp only at h
          split at h
          · exact Except.noConfusion h
          next u4 hval =>
            injection h with h2
            split at hval
            · exact Except.noConfusion hval
            next u5 hvalpp =>
            split at hval
            · exact Except.noConfusion hval
            next st4 htr1 =>
              have h4 := (transfer_usdc_safe_ok htr1).2.2.2
              subst h4
              have h5 := (transfer_usdc_safe_ok hval).2.2.2
              subst h5
              exact ⟨e, _, hini, hlen, he, hstat2, hflag2, by rw [← h2]⟩

/-! ### The reachable-state invariant -/

/-- The contributor flag and the status agree: an unassigned escrow is
`Open` or `Cancelled`; an assigned one is in one of the four post-assignment
states. -/
def EscrowOk (e : TaskEscrow) : Prop :=
  (e.has_contributor = false →
    e.status = .Open ∨ e.status = .Cancelled) ∧
  (e.has_contributor = true →
    e.status = .InProgress ∨ e.status = .Completed ∨
    e.status = .Disputed ∨ e.status = .Resolved)

/-- Master invariant: every stored escrow satisfies `EscrowOk`, is keyed by
a length-25 id, and can only exist once the contract is initialized. -/
def Inv (st : ContractState) : Prop :=
  ∀ tid e, assocGet st.escrows tid = some e →
    EscrowOk e ∧ tid.length = 25 ∧ is_initialized st = true

theorem applyOp_preserves_inv {st : ContractState} {op : Op}
    {st2 : ContractState} (hinv : Inv st) (h : applyOp st op = .ok st2) :
    Inv st2 := by
  cases op with
  | opInitialize a u =>
    obtain ⟨-, hshape⟩ := initializeContract_ok h
    subst hshape
    intro tid e hget
    have := hinv tid e hget
    exact ⟨this.1, this.2.1, by simp [is_initialized]⟩
  | opSetAdmin a =>
    obtain ⟨-, hshape⟩ := set_admin_ok h
    subst hshape
    intro tid e hget
    have h3 := hinv tid e hget
    have h4 := is_initialized_iff.mp h3.2.2
    exact ⟨h3.1, h3.2.1, is_initialized_iff.mpr ⟨by simp, h4.2⟩⟩
  | opUpdateUsdcToken a =>
    obtain ⟨hadm, hshape⟩ := update_usdc_token_ok h
    subst hshape
    intro tid e hget
    have h3 := hinv tid e hget
    exact ⟨h3.1, h3.2.1, is_initialized_iff.mpr ⟨hadm, by simp⟩⟩
  | opCreateEscrow c tid0 url b now =>
    obtain ⟨hini, hlen, -, -, hshape⟩ := create_escrow_ok h
    subst hshape
    intro tid e hget
    simp only [assocGet_assocSet] at hget
    by_cases htid : tid = tid0
    · rw [if_pos htid] at hget
      injection hget with hget
      subst hget
      subst htid
      exact ⟨⟨fun _ => Or.inl rfl, by simp [newEscrow]⟩, hlen,
             by simpa [is_initialized] using hini⟩
    · rw [if_neg htid] at hget
      have h3 := hinv tid e hget
      exact ⟨h3.1, h3.2.1, by simpa [is_initialized] using h3.2.2⟩
  | opAssignContributor tid0 c =>
    obtain ⟨e0, hini, hlen, hget0, -, hshape⟩ := assign_contributor_ok h
    subst hshape
    intro tid e hget
    simp only [assocGet_assocSet] at hget
    by_cases htid : tid = tid0
    · rw [if_pos htid] at hget
      injection hget with hget
      subst hget
      subst htid
      exact ⟨⟨by simp, fun _ => Or.inl rfl⟩, hlen, hini⟩
    · rw [if_neg htid] at hget
      exact hinv tid e hget
  | opCompleteTask tid0 now =>
    obtain ⟨e0, hini, hlen, hget0, -, hflag, hshape⟩ := complete_task_ok h
    subst hshape
    intro tid e hget
    simp only [assocGet_assocSet] at hget
    by_cases htid : tid = tid0
    · rw [if_pos htid] at hget
      injection hget with hget
      subst hget
      subst htid
      exact ⟨⟨by simp [hflag], fun _ => Or.inr (Or.inl rfl)⟩, hlen, hini⟩
    · rw [if_neg htid] at hget
      exact hinv tid e hget
  | opApproveCompletion tid0 =>
    obtain ⟨e0, hini, hlen, hget0, -, hflag, hshape⟩ := approve_completion_ok h
    subst hshape
    intro tid e hget
    simp only [assocGet_assocSet] at hget
    by_cases htid : tid = tid0
    · rw [if_pos htid] at hget
      injection hget with hget
      subst hget
      subst htid
      exact ⟨⟨by simp [hflag], fun _ => Or.inr (Or.inr (Or.inr rfl))⟩,
             hlen, hini⟩
    · rw [if_neg htid] at hget
      have h3 := hinv tid e hget
      exact ⟨h3.1, h3.2.1, by simpa [is_initialized] using h3.2.2⟩
  | opDisputeTask p tid0 reason now =>
    obtain ⟨e0, hini, hlen, hget0, hflag, -, -, -, hshape⟩ := dispute_task_ok h
    subst hshape
    intro tid e hget
    simp only [assocGet_assocSet] at hget
    by_cases htid : tid = tid0
    · rw [if_pos htid] at hget
      injection hget with hget
      subst hget
      subst htid
      exact ⟨⟨by simp [hflag], fun _ => Or.inr (Or.inr (Or.inl rfl))⟩,
             hlen, hini⟩
    · rw [if_neg htid] at hget
      exact hinv tid e hget
  | opResolveDispute tid0 r =>
    obtain ⟨e0, tok2, hini, hlen, hget0, -, hflag, hshape⟩ :=
      resolve_dispute_ok h
    subst hshape
    intro tid e hget
    simp only [assocGet_assocSet] at hget
    by_cases htid : tid = tid0
    · rw [if_pos htid] at hget
      injection hget with hget
      subst hget
      subst htid
      exact ⟨⟨by simp [hflag], fun _ => Or.inr (Or.inr (Or.inr rfl))⟩,
             hlen, hini⟩
    · rw [if_neg htid] at hget
      have h3 := hinv tid e hget
      exact ⟨h3.1, h3.2.1, by simpa [is_initialized] using h3.2.2⟩
  | opRefund tid0 =>
    obtain ⟨e0, hini, hlen, hget0, hflag, -, hshape⟩ := refund_ok h
    subst hshape
    intro tid e hget
    simp only [assocGet_assocSet] at hget
    by_cases htid : tid = tid0
    · rw [if_pos htid] at hget
      injection hget with hget
      subst hget
      subst htid
      exact ⟨⟨fun _ => Or.inr rfl, by simp [hflag]⟩, hlen, hini⟩
    · rw [if_neg htid] at hget
      have h3 := hinv tid e hget
      exact ⟨h3.1, h3.2.1, by simpa [is_initialized] using h3.2.2⟩

theorem reachable_inv {st : ContractState} (h : Reachable st) : Inv st := by
  induction h with
  | start tok => intro tid e hget; simp [emptyState, assocGet] at hget
  | step hr hok ih => exact applyOp_preserves_inv ih hok
  | tokenDrift tok hr ih =>
    intro tid e hget
    have h3 := ih tid e hget
    exact ⟨h3.1, h3.2.1, by simpa [is_initialized] using h3.2.2⟩

/-- On every reachable state, a stored task counter implies a stored admin
(so `initialize` can never reset a nonzero counter). -/
theorem reachable_taskCount_admin {st : ContractState} (h : Reachable st) :
    st.taskCount.isSome = true → st.admin.isSome = true := by
  induction h with
  | start tok => intro hc; simp [emptyState] at hc
  | step hr hok ih =>
    rename_i st0 op st2
    intro hc
    cases op with
    | opInitialize a u =>
      obtain ⟨-, hshape⟩ := initializeContract_ok hok
      subst hshape; simp
    | opSetAdmin a =>
      obtain ⟨-, hshape⟩ := set_admin_ok hok
      subst hshape; simp
    | opUpdateUsdcToken a =>
      obtain ⟨hadm, hshape⟩ := update_usdc_token_ok hok
      subst hshape; simpa using hadm
    | opCreateEscrow c tid url b now =>
      obtain ⟨hini, -, -, -, hshape⟩ := create_escrow_ok hok
      subst hshape
      simpa using (is_initialized_iff.mp hini).1
    | opAssignContributor tid c =>
      obtain ⟨e, hini, -, -, -, hshape⟩ := assign_contributor_ok hok
      subst hshape
      simpa using (is_initialized_iff.mp hini).1
    | opCompleteTask tid now =>
      obtain ⟨e, hini, -, -, -, -, hshape⟩ := complete_task_ok hok
      subst hshape
      simpa using (is_initialized_iff.mp hini).1
    | opApproveCompletion tid =>
      obtain ⟨e, hini, -, -, -, -, hshape⟩ := approve_completion_ok hok
      subst hshape
      simpa using (is_initialized_iff.mp hini).1
    | opDisputeTask p tid r now =>
      obtain ⟨e, hini, -, -, -, -, -, -, hshape⟩ := dispute_task_ok hok
      subst hshape
      simpa using (is_initialized_iff.mp hini).1
    | opResolveDispute tid r =>
      obtain ⟨e, tok2, hini, -, -, -, -, hshape⟩ := resolve_dispute_ok hok
      subst hshape
      simpa using (is_initialized_iff.mp hini).1
    | opRefund tid =>
      obtain ⟨e, hini, -, -, -, -, hshape⟩ := refund_ok hok
      subst hshape
      simpa using (is_initialized_iff.mp hini).1
  | tokenDrift tok hr ih => intro hc; exact ih hc

/-! ### Reaching the demonstration states -/

theorem demo1_reachable : Reachable demo1 :=
  @Reachable.step demo0 (Op.opInitialize 10 11) demo1
    (Reachable.start demoToken) (by decide)

theorem demo2_reachable : Reachable demo2 :=
  @Reachable.step demo1 (Op.opCreateEscrow 2 tidA "u" 1000000 5) demo2
    demo1_reachable (by decide)

theorem demo3_reachable : Reachable demo3 :=
  @Reachable.step demo2 (Op.opCreateEscrow 2 tidB "u" 1000000 6) demo3
    demo2_reachable (by decide)

theorem demo4_reachable : Reachable demo4 :=
  @Reachable.step demo3 (Op.opRefund tidA) demo4
    demo3_reachable (by decide)

/-! ### Token-balance bookkeeping lemmas -/

theorem getBalance_assocSet (tok : List (Address × Int)) (a b : Address)
    (v : Int) :
    getBalance (assocSet tok a v) b = if b = a then v else getBalance tok b := by
  unfold getBalance
  rw [assocGet_assocSet]
  by_cases hb : b = a <;> simp [hb]

theorem getBalance_tokenTransfer_dst (tok : List (Address × Int))
    (src dst : Address) (a : Int) (hne : dst ≠ src) :
    getBalance (tokenTransfer tok src dst a) dst = getBalance tok dst + a := by
  unfold tokenTransfer
  simp [getBalance_assocSet, hne]

theorem getBalance_tokenTransfer_other (tok : List (Address × Int))
    (src dst x : Address) (a : Int) (h1 : x ≠ src) (h2 : x ≠ dst) :
    getBalance (tokenTransfer tok src dst a) x = getBalance tok x := by
  unfold tokenTransfer
  simp [getBalance_assocSet, h1, h2]

/-- Precise shape of a successful partial-payment resolution: the two
transfers of the source, in order. -/
theorem resolve_dispute_partial_ok {st : ContractState} {tid : TaskId}
    {amt : Int} {st2 : ContractState}
    (h : resolve_dispute st tid (.PartialPayment amt) = .ok st2) :
    ∃ e, assocGet st.escrows tid = some e ∧ e.status = .Disputed ∧
      e.has_contributor = true ∧
      validate_partial_payment amt e.bounty_amount = .ok () ∧
      st2 = { st with
        token := tokenTransfer
          (tokenTransfer st.token contractAddress e.contributor amt)
          contractAddress e.creator (e.bounty_amount - amt),
        escrows := (assocSet st.escrows tid
          ({ e with status := TaskStatus.Resolved })) } := by
  unfold resolve_dispute at h
  split at h
  · exact Except.noConfusion h
  next u1 hvcs =>
  split at h
  · exact Except.noConfusion h
  next u2 hvtid =>
  split at h
  · exact Except.noConfusion h
  next u3 hadm =>
  split at h
  · exact Except.noConfusion h
  next e he =>
    split at h
    · exact Except.noConfusion h
    next hstat =>
      split at h
      · exact Except.noConfusion h
      next hflag =>
        dsimp only at h
        split at h
        · exact Except.noConfusion h
        next u4 hval =>
          injection h with h2
          split at hval
          · exact Except.noConfusion hval
          next u5 hvalpp =>
          split at hval
          · exact Except.noConfusion hval
          next st4 htr1 =>
            have h4 := (transfer_usdc_safe_ok htr1).2.2.2
            subst h4
            have h5 := (transfer_usdc_safe_ok hval).2.2.2
            subst h5
            refine ⟨e, he, by simpa using hstat, by simpa using hflag,
                    ?_, by rw [← h2]⟩
            cases u5
            exact hvalpp

/-! ### Characterizing the amount validators -/

theorem validate_amount_err_low {amount : Int}
    (h : amount ≤ 0 ∨ amount < 100000) :
    validate_amount amount = .error .InvalidAmount := by
  unfold validate_amount
  rcases h with h | h
  · rw [if_pos h]
  · by_cases h0 : amount ≤ 0
    · rw [if_pos h0]
    · rw [if_neg h0, if_pos h]

theorem validate_amount_err_high {amount : Int}
    (h : 10000000000000000 < amount) :
    validate_amount amount = .error .InvalidTokenAmount := by
  unfold validate_amount
  have h0 : ¬ amount ≤ 0 := by omega
  have h1 : ¬ amount < 100000 := by omega
  rw [if_neg h0, if_neg h1, if_pos (by omega)]

theorem validate_amount_ok_of {amount : Int} (h1 : 100000 ≤ amount)
    (h2 : amount ≤ 10000000000000000) :
    validate_amount amount = .ok () := by
  unfold validate_amount
  have h0 : ¬ amount ≤ 0 := by omega
  have h3 : ¬ amount < 100000 := by omega
  have h4 : ¬ amount > 10000000000000000 := by omega
  rw [if_neg h0, if_neg h3, if_neg h4, if_neg (by simp)]

/-! ### The claims -/

/-- C8: validation of token amounts fails with `InvalidAmount` for amounts
that are non-positive or below the 100,000 base-unit dust minimum, fails
with `InvalidTokenAmount` above the 10^16 base-unit ceiling, and succeeds
for every amount in the closed interval [100000, 10^16]. -/
theorem C8_validate_amount_characterization (amount : Int) :
    (amount ≤ 0 ∨ amount < 100000 →
      validate_amount amount = .error .InvalidAmount) ∧
    (10000000000000000 < amount →
      validate_amount amount = .error .InvalidTokenAmount) ∧
    (100000 ≤ amount → amount ≤ 10000000000000000 →
      validate_amount amount = .ok ()) :=
  ⟨fun h => validate_amount_err_low h,
   fun h => validate_amount_err_high h,
   fun h1 h2 => validate_amount_ok_of h1 h2⟩

/-- Witness for C8 at the boundary amounts. -/
theorem C8_witness :
    validate_amount 99999 = .error .InvalidAmount ∧
    validate_amount 10000000000000001 = .error .InvalidTokenAmount ∧
    validate_amount 100000 = .ok () ∧
    validate_amount 10000000000000000 = .ok () :=
  ⟨(C8_validate_amount_characterization 99999).1 (Or.inr (by decide)),
   (C8_validate_amount_characterization 10000000000000001).2.1 (by decide),
   (C8_validate_amount_characterization 100000).2.2 (by decide) (by decide),
   (C8_validate_amount_characterization 10000000000000000).2.2 (by decide)
     (by decide)⟩

/-- C7 counterexample: at partial = 50000, total = 5000000 none of the
claim's three failure conditions holds (partial ≤ total, partial equals 1%
of total, and the remainder far exceeds 1%), yet
`validate_partial_payment` rejects the split — with `InvalidAmount`, since
it first runs the general amount validator on the partial amount and 50000
is below the 100,000 dust minimum. -/
theorem C7_counterexample :
    ¬ ((50000 : Int) > 5000000) ∧
    ¬ ((50000 : Int) < 5000000 / 100) ∧
    ¬ ((5000000 : Int) - 50000 < 5000000 / 100) ∧
    validate_partial_payment 50000 5000000 = .error .InvalidAmount := by
  refine ⟨by decide, by decide, by decide, by decide⟩

/-- C7 amended: `validate_partial_payment(partial, total)` first applies
the general amount validation to `partial` (failing `InvalidAmount` when
`partial ≤ 0` or `partial < 100000`, and `InvalidTokenAmount` when
`partial > 10^16`); past that gate it fails `InvalidTokenAmount` if
`partial > total`, or if `partial` or `total - partial` is below
`total / 100` (integer division), and succeeds on every other input. -/
theorem C7_partial_payment_validation (part total : Int) :
    (part ≤ 0 ∨ part < 100000 →
      validate_partial_payment part total = .error .InvalidAmount) ∧
    (10000000000000000 < part →
      validate_partial_payment part total = .error .InvalidTokenAmount) ∧
    (100000 ≤ part → part ≤ 10000000000000000 →
      (total < part ∨ part < total / 100 ∨
          total - part < total / 100 →
        validate_partial_payment part total =
          .error .InvalidTokenAmount) ∧
      (part ≤ total → total / 100 ≤ part →
          total / 100 ≤ total - part →
        validate_partial_payment part total = .ok ())) := by
  refine ⟨fun h => ?_, fun h => ?_,
          fun h1 h2 => ⟨fun h3 => ?_, fun h3 h4 h5 => ?_⟩⟩
  · unfold validate_partial_payment
    rw [validate_amount_err_low h]
  · unfold validate_partial_payment
    rw [validate_amount_err_high h]
  · unfold validate_partial_payment
    rw [validate_amount_ok_of h1 h2]
    dsimp only
    by_cases hgt : part > total
    · rw [if_pos hgt]
    · rw [if_neg hgt]
      by_cases hlt : part < total / 100
      · rw [if_pos hlt]
      · rw [if_neg hlt]
        rw [if_pos (by omega)]
  · unfold validate_partial_payment
    rw [validate_amount_ok_of h1 h2]
    dsimp only
    rw [if_neg (by omega), if_neg (by omega), if_neg (by omega)]

/-- Witness for C7 on a dust split, a valid 60/40 split, and an
over-the-total split. -/
theorem C7_witness :
    validate_partial_payment 50000 5000000 = .error .InvalidAmount ∧
    validate_partial_payment 600000 1000000 = .ok () ∧
    validate_partial_payment 2000000 1000000 = .error .InvalidTokenAmount :=
  ⟨(C7_partial_payment_validation 50000 5000000).1 (Or.inr (by decide)),
   ((C7_partial_payment_validation 600000 1000000).2.2 (by decide)
     (by decide)).2 (by decide) (by decide) (by decide),
   ((C7_partial_payment_validation 2000000 1000000).2.2 (by decide)
     (by decide)).1 (Or.inl (by decide))⟩

/-- C1: evaluation of the code at the failing input.  The state `demo4` is
reachable (initialize; two escrows created; `refund` of `tidA`), its escrow
`tidA` is in the terminal status `Cancelled` — yet `assign_contributor`
succeeds on it and moves it back to `InProgress`, because the function
checks only the `has_contributor` flag and never the status, contradicting
its own doc comment ("Can only be called by the task creator when task is
in Open status") and the lifecycle graph. -/
theorem C1_assign_contributor_succeeds_on_cancelled :
    Reachable demo4 ∧
    (assocGet demo4.escrows tidA).map TaskEscrow.status =
      some TaskStatus.Cancelled ∧
    assign_contributor demo4 tidA 3 = .ok demo5 ∧
    (assocGet demo5.escrows tidA).map TaskEscrow.status =
      some TaskStatus.InProgress :=
  ⟨demo4_reachable, by decide, by decide, by decide⟩

/-- C2 counterexample: the reachable state `demo4` (create then refund)
stores the escrow `tidA` with `has_contributor = false` and status
`Cancelled`, not `Open` — refuting the claim's first implication. -/
theorem C2_counterexample :
    Reachable demo4 ∧
    (assocGet demo4.escrows tidA).map TaskEscrow.has_contributor =
      some false ∧
    (assocGet demo4.escrows tidA).map TaskEscrow.status =
      some TaskStatus.Cancelled ∧
    TaskStatus.Cancelled ≠ TaskStatus.Open :=
  ⟨demo4_reachable, by decide, by decide, by decide⟩

/-- C2 amended: in every reachable escrow record,
`has_contributor = false` implies the status is `Open` or `Cancelled`
(a refunded escrow keeps the flag cleared), and `has_contributor = true`
implies the status is `InProgress`, `Completed`, `Disputed` or
`Resolved`. -/
theorem C2_contributor_flag_invariant (st : ContractState)
    (tid : TaskId) (e : TaskEscrow) (h : Reachable st)
    (hget : assocGet st.escrows tid = some e) :
    (e.has_contributor = false →
      e.status = .Open ∨ e.status = .Cancelled) ∧
    (e.has_contributor = true →
      e.status = .InProgress ∨ e.status = .Completed ∨
      e.status = .Disputed ∨ e.status = .Resolved) :=
  (reachable_inv h tid e hget).1

/-- Witness for C2 at the reachable cancelled escrow of `demo4`. -/
theorem C2_witness :
    (cancelledA.has_contributor = false →
      cancelledA.status = .Open ∨ cancelledA.status = .Cancelled) ∧
    (cancelledA.has_contributor = true →
      cancelledA.status = .InProgress ∨ cancelledA.status = .Completed ∨
      cancelledA.status = .Disputed ∨ cancelledA.status = .Resolved) :=
  C2_contributor_flag_invariant demo4 tidA cancelledA demo4_reachable
    (by decide)

/-- C5 counterexample: the bounty of `tidA` (1,000,000 base units) leaves
the contract twice.  From `demo3` (two funded escrows) the refund pays the
creator and puts `tidA` in the terminal status `Cancelled`; then
`assign_contributor` resurrects it, `complete_task` and
`approve_completion` succeed, and the contributor is paid the same bounty
again (out of the second escrow's funds) — refuting "the bounty leaves the
contract exactly once per escrow". -/
theorem C5_counterexample :
    Reachable demo3 ∧
    refund demo3 tidA = .ok demo4 ∧
    getBalance demo4.token 2 - getBalance demo3.token 2 = 1000000 ∧
    (assocGet demo4.escrows tidA).map TaskEscrow.status =
      some TaskStatus.Cancelled ∧
    assign_contributor demo4 tidA 3 = .ok demo5 ∧
    complete_task demo5 tidA 7 = .ok demo6 ∧
    approve_completion demo6 tidA = .ok demo7 ∧
    getBalance demo7.token 3 - getBalance demo6.token 3 = 1000000 :=
  ⟨demo3_reachable, by decide, by decide, by decide, by decide, by decide,
   by decide, by decide⟩

/-- C5 amended: while a reachable escrow's status is terminal (`Resolved`
or `Cancelled`), each terminal-pay operation fails without any token
transfer — `approve_completion` with `TaskNotCompleted`,
`resolve_dispute` with `TaskNotDisputed`, and `refund` with
`ContributorAlreadyAssigned` on `Resolved` (the flag check precedes the
status check) or `InvalidTaskStatus` on `Cancelled`; the exactly-once
guarantee holds only as long as the escrow stays terminal, since
`assign_contributor` can move a `Cancelled` escrow back to `InProgress`.
A failing call leaves the state untouched (the host rolls back), so none
of these calls moves tokens. -/
theorem C5_terminal_operations_fail (st : ContractState) (tid : TaskId)
    (e : TaskEscrow) (r : DisputeResolution) (h : Reachable st)
    (hget : assocGet st.escrows tid = some e)
    (hterm : e.status = .Resolved ∨ e.status = .Cancelled) :
    approve_completion st tid = .error .TaskNotCompleted ∧
    resolve_dispute st tid r = .error .TaskNotDisputed ∧
    (e.status = .Resolved →
      refund st tid = .error .ContributorAlreadyAssigned) ∧
    (e.status = .Cancelled → refund st tid = .error .InvalidTaskStatus) := by
  have hInv := reachable_inv h tid e hget
  have hok := hInv.1
  have hlen := hInv.2.1
  have hini := hInv.2.2
  have hvcs := validate_contract_state_ok hini
  have hvtid := validate_task_id_ok hlen
  have hadm : require_admin st = .ok () :=
    require_admin_ok (is_initialized_iff.mp hini).1
  have hstatC : e.status ≠ .Completed := by
    rcases hterm with h1 | h1 <;> simp [h1]
  have hstatD : e.status ≠ .Disputed := by
    rcases hterm with h1 | h1 <;> simp [h1]
  refine ⟨?_, ?_, ?_, ?_⟩
  · unfold approve_completion
    rw [hvcs, hvtid, hget]
    simp [hstatC]
  · unfold resolve_dispute
    rw [hvcs, hvtid, hadm, hget]
    simp [hstatD]
  · intro hres
    have hflag : e.has_contributor = true := by
      cases hfc : e.has_contributor
      · rcases hok.1 hfc with h1 | h1 <;> rw [hres] at h1 <;>
          exact TaskStatus.noConfusion h1
      · rfl
    unfold refund
    rw [hvcs, hvtid, hget]
    simp [hflag]
  · intro hcan
    have hflag : e.has_contributor = false := by
      cases hfc : e.has_contributor
      · rfl
      · rcases hok.2 hfc with h1 | h1 | h1 | h1 <;> rw [hcan] at h1 <;>
          exact TaskStatus.noConfusion h1
    have hstatO : e.status ≠ .Open := by simp [hcan]
    unfold refund
    rw [hvcs, hvtid, hget]
    simp [hflag, hstatO]

/-- Witness for C5 at the reachable cancelled escrow of `demo4`. -/
theorem C5_witness :
    approve_completion demo4 tidA = .error .TaskNotCompleted ∧
    resolve_dispute demo4 tidA .PayContributor = .error .TaskNotDisputed ∧
    (cancelledA.status = .Resolved →
      refund demo4 tidA = .error .ContributorAlreadyAssigned) ∧
    (cancelledA.status = .Cancelled →
      refund demo4 tidA = .error .InvalidTaskStatus) :=
  C5_terminal_operations_fail demo4 tidA cancelledA .PayContributor
    demo4_reachable (by decide) (Or.inr (by decide))

/-- C6: a successful partial-payment resolution pays the contributor
exactly `amt`, pays the creator exactly `bounty_amount - amt`, the two
payments sum to `bounty_amount`, and the escrow ends `Resolved` (the
distinctness hypotheses keep the three balance accounts separate). -/
theorem C6_partial_payment_exact (st : ContractState) (tid : TaskId)
    (e : TaskEscrow) (amt : Int) (st2 : ContractState)
    (hget : assocGet st.escrows tid = some e)
    (hok : resolve_dispute st tid (.PartialPayment amt) = .ok st2)
    (hcc : e.contributor ≠ e.creator)
    (hc1 : e.contributor ≠ contractAddress)
    (hc2 : e.creator ≠ contractAddress) :
    getBalance st2.token e.contributor =
      getBalance st.token e.contributor + amt ∧
    getBalance st2.token e.creator =
      getBalance st.token e.creator + (e.bounty_amount - amt) ∧
    (assocGet st2.escrows tid).map TaskEscrow.status =
      some TaskStatus.Resolved ∧
    amt + (e.bounty_amount - amt) = e.bounty_amount := by
  obtain ⟨e2, hget2, -, -, -, hshape⟩ := resolve_dispute_partial_ok hok
  rw [hget] at hget2
  injection hget2 with he2
  subst he2
  subst hshape
  refine ⟨?_, ?_, ?_, by omega⟩
  · rw [getBalance_tokenTransfer_other _ _ _ _ _ hc1 hcc,
        getBalance_tokenTransfer_dst _ _ _ _ hc1]
  · rw [getBalance_tokenTransfer_dst _ _ _ _ hc2,
        getBalance_tokenTransfer_other _ _ _ _ _ hc2
          (fun hx => hcc hx.symm)]
  · simp [assocGet_assocSet]

/-- Witness for C6: a 600,000 / 400,000 split of a 1,000,000 bounty. -/
theorem C6_witness :
    getBalance demoResolved.token disputedE.contributor =
      getBalance demoDisputed.token disputedE.contributor + 600000 ∧
    getBalance demoResolved.token disputedE.creator =
      getBalance demoDisputed.token disputedE.creator +
        (disputedE.bounty_amount - 600000) ∧
    (assocGet demoResolved.escrows tidA).map TaskEscrow.status =
      some TaskStatus.Resolved ∧
    600000 + (disputedE.bounty_amount - 600000) = disputedE.bounty_amount :=
  C6_partial_payment_exact demoDisputed tidA disputedE 600000 demoResolved
    (by decide) (by decide) (by decide) (by decide) (by decide)

/-- C9: no public operation of the code ever rewrites the `bounty_amount`
of an existing escrow record — whenever a record for `tid` exists before
and after a successful operation, the field is unchanged, so it is fixed
at `create_escrow` for the record's lifetime. -/
theorem C9_bounty_amount_frame (st : ContractState) (op : Op)
    (st2 : ContractState) (tid : TaskId) (e e2 : TaskEscrow)
    (hok : applyOp st op = .ok st2)
    (h1 : assocGet st.escrows tid = some e)
    (h2 : assocGet st2.escrows tid = some e2) :
    e2.bounty_amount = e.bounty_amount := by
  cases op with
  | opInitialize a u =>
    obtain ⟨-, hshape⟩ := initializeContract_ok hok
    subst hshape
    rw [h1] at h2; injection h2 with h2; rw [← h2]
  | opSetAdmin a =>
    obtain ⟨-, hshape⟩ := set_admin_ok hok
    subst hshape
    rw [h1] at h2; injection h2 with h2; rw [← h2]
  | opUpdateUsdcToken a =>
    obtain ⟨-, hshape⟩ := update_usdc_token_ok hok
    subst hshape
    rw [h1] at h2; injection h2 with h2; rw [← h2]
  | opCreateEscrow c tid0 url b now =>
    obtain ⟨-, -, -, hnone, hshape⟩ := create_escrow_ok hok
    subst hshape
    simp only [assocGet_assocSet] at h2
    by_cases htid : tid = tid0
    · rw [htid] at h1; rw [h1] at hnone; exact Option.noConfusion hnone
    · rw [if_neg htid, h1] at h2; injection h2 with h2; rw [← h2]
  | opAssignContributor tid0 c =>
    obtain ⟨e0, -, -, hget0, -, hshape⟩ := assign_contributor_ok hok
    subst hshape
    simp only [assocGet_assocSet] at h2
    by_cases htid : tid = tid0
    · subst htid
      rw [h1] at hget0; injection hget0 with hg
      rw [if_pos rfl] at h2; injection h2 with h2
      rw [← h2, hg]
    · rw [if_neg htid, h1] at h2; injection h2 with h2; rw [← h2]
  | opCompleteTask tid0 now =>
    obtain ⟨e0, -, -, hget0, -, -, hshape⟩ := complete_task_ok hok
    subst hshape
    simp only [assocGet_assocSet] at h2
    by_cases htid : tid = tid0
    · subst htid
      rw [h1] at hget0; injection hget0 with hg
      rw [if_pos rfl] at h2; injection h2 with h2
      rw [← h2, hg]
    · rw [if_neg htid, h1] at h2; injection h2 with h2; rw [← h2]
  | opApproveCompletion tid0 =>
    obtain ⟨e0, -, -, hget0, -, -, hshape⟩ := approve_completion_ok hok
    subst hshape
    simp only [assocGet_assocSet] at h2
    by_cases htid : tid = tid0
    · subst htid
      rw [h1] at hget0; injection hget0 with hg
      rw [if_pos rfl] at h2; injection h2 with h2
      rw [← h2, hg]
    · rw [if_neg htid, h1] at h2; injection h2 with h2; rw [← h2]
  | opDisputeTask p tid0 r now =>
    obtain ⟨e0, -, -, hget0, -, -, -, -, hshape⟩ := dispute_task_ok hok
    subst hshape
    simp only [assocGet_assocSet] at h2
    by_cases htid : tid = tid0
    · subst htid
      rw [h1] at hget0; injection hget0 with hg
      rw [if_pos rfl] at h2; injection h2 with h2
      rw [← h2, hg]
    · rw [if_neg htid, h1] at h2; injection h2 with h2; rw [← h2]
  | opResolveDispute tid0 r =>
    obtain ⟨e0, tok2, -, -, hget0, -, -, hshape⟩ := resolve_dispute_ok hok
    subst hshape
    simp only [assocGet_assocSet] at h2
    by_cases htid : tid = tid0
    · subst htid
      rw [h1] at hget0; injection hget0 with hg
      rw [if_pos rfl] at h2; injection h2 with h2
      rw [← h2, hg]
    · rw [if_neg htid, h1] at h2; injection h2 with h2; rw [← h2]
  | opRefund tid0 =>
    obtain ⟨e0, -, -, hget0, -, -, hshape⟩ := refund_ok hok
    subst hshape
    simp only [assocGet_assocSet] at h2
    by_cases htid : tid = tid0
    · subst htid
      rw [h1] at hget0; injection hget0 with hg
      rw [if_pos rfl] at h2; injection h2 with h2
      rw [← h2, hg]
    · rw [if_neg htid, h1] at h2; injection h2 with h2; rw [← h2]

/-- Witness for C9: assigning a contributor leaves the stored bounty at
1,000,000. -/
theorem C9_witness :
    ({ newEscrow 2 tidA "u" 1000000 5 with
        contributor := 3,
        has_contributor := true,
        status := TaskStatus.InProgress } : TaskEscrow).bounty_amount =
      (newEscrow 2 tidA "u" 1000000 5).bounty_amount :=
  C9_bounty_amount_frame demo3 (Op.opAssignContributor tidA 3) demoAssigned
    tidA (newEscrow 2 tidA "u" 1000000 5)
    ({ newEscrow 2 tidA "u" 1000000 5 with
        contributor := 3,
        has_contributor := true,
        status := TaskStatus.InProgress })
    (by decide) (by decide) (by decide)

theorem runOps_cons_error {st : ContractState} {op : Op} {err : Error}
    (rest : List Op) (h : applyOp st op = .error err) :
    runOps st (op :: rest) = runOps st rest := by
  simp [runOps, h]

theorem runOps_cons_ok {st : ContractState} {op : Op} {st2 : ContractState}
    (rest : List Op) (h : applyOp st op = .ok st2) :
    runOps st (op :: rest) = runOps st2 rest := by
  simp [runOps, h]

theorem countCreates_cons_error {st : ContractState} {op : Op}
    {err : Error} (rest : List Op) (h : applyOp st op = .error err) :
    countCreates st (op :: rest) = countCreates st rest := by
  simp [countCreates, h]

theorem countCreates_cons_ok_create {st : ContractState} {c : Address}
    {tid : TaskId} {url : String} {b : Int} {now : Nat}
    {st2 : ContractState} (rest : List Op)
    (h : applyOp st (Op.opCreateEscrow c tid url b now) = .ok st2) :
    countCreates st (Op.opCreateEscrow c tid url b now :: rest) =
      countCreates st2 rest + 1 := by
  simp [countCreates, h]

theorem countCreates_cons_ok_other {st : ContractState} {op : Op}
    {st2 : ContractState} (rest : List Op) (h : applyOp st op = .ok st2)
    (hne : ∀ c tid url b now, op ≠ Op.opCreateEscrow c tid url b now) :
    countCreates st (op :: rest) = countCreates st2 rest := by
  cases op
  case opCreateEscrow c tid url b now => exact absurd rfl (hne c tid url b now)
  all_goals simp [countCreates, h]

/-- C10: the task counter reads 0 before initialization (it is total and
cannot fail), a successful `create_escrow` increments it by exactly 1,
every other successful operation leaves it unchanged on reachable states,
and along any run the final count equals the initial count plus the number
of successful `create_escrow` calls (hence it is non-decreasing). -/
theorem C10_task_count :
    (∀ tok, get_task_count (emptyState tok) = 0) ∧
    (∀ st c tid url b now st2,
      create_escrow st c tid url b now = .ok st2 →
      get_task_count st2 = get_task_count st + 1) ∧
    (∀ st op st2, Reachable st → applyOp st op = .ok st2 →
      (∀ c tid url b now, op ≠ Op.opCreateEscrow c tid url b now) →
      get_task_count st2 = get_task_count st) ∧
    (∀ ops st, Reachable st →
      get_task_count (runOps st ops) =
        get_task_count st + countCreates st ops) := by
  have p2 : ∀ st c tid url b now st2,
      create_escrow st c tid url b now = .ok st2 →
      get_task_count st2 = get_task_count st + 1 := by
    intro st c tid url b now st2 hok
    obtain ⟨-, -, -, -, hshape⟩ := create_escrow_ok hok
    subst hshape
    simp [get_task_count]
  have p3 : ∀ st op st2, Reachable st → applyOp st op = .ok st2 →
      (∀ c tid url b now, op ≠ Op.opCreateEscrow c tid url b now) →
      get_task_count st2 = get_task_count st := by
    intro st op st2 hr hok hne
    cases op with
    | opInitialize a u =>
      obtain ⟨hadm, hshape⟩ := initializeContract_ok hok
      subst hshape
      have hcn : st.taskCount = none := by
        cases hc : st.taskCount with
        | none => rfl
        | some n =>
          have h4 := reachable_taskCount_admin hr (by simp [hc])
          rw [hadm] at h4
          simp at h4
      simp [get_task_count, hcn]
    | opSetAdmin a =>
      obtain ⟨-, hshape⟩ := set_admin_ok hok
      subst hshape; rfl
    | opUpdateUsdcToken a =>
      obtain ⟨-, hshape⟩ := update_usdc_token_ok hok
      subst hshape; rfl
    | opCreateEscrow c tid url b now => exact absurd rfl (hne c tid url b now)
    | opAssignContributor tid c =>
      obtain ⟨e0, -, -, -, -, hshape⟩ := assign_contributor_ok hok
      subst hshape; rfl
    | opCompleteTask tid now =>
      obtain ⟨e0, -, -, -, -, -, hshape⟩ := complete_task_ok hok
      subst hshape; rfl
    | opApproveCompletion tid =>
      obtain ⟨e0, -, -, -, -, -, hshape⟩ := approve_completion_ok hok
      subst hshape; rfl
    | opDisputeTask p tid r now =>
      obtain ⟨e0, -, -, -, -, -, -, -, hshape⟩ := dispute_task_ok hok
      subst hshape; rfl
    | opResolveDispute tid r =>
      obtain ⟨e0, tok2, -, -, -, -, -, hshape⟩ := resolve_dispute_ok hok
      subst hshape; rfl
    | opRefund tid =>
      obtain ⟨e0, -, -, -, -, -, hshape⟩ := refund_ok hok
      subst hshape; rfl
  refine ⟨fun tok => rfl, p2, p3, ?_⟩
  intro ops
  induction ops with
  | nil => intro st hr; simp [runOps, countCreates]
  | cons op rest ih =>
    intro st hr
    cases hap : applyOp st op with
    | error err =>
      rw [runOps_cons_error rest hap, countCreates_cons_error rest hap]
      exact ih st hr
    | ok st3 =>
      have hr3 : Reachable st3 := Reachable.step hr hap
      rw [runOps_cons_ok rest hap]
      by_cases hc : ∃ c tid url b now,
          op = Op.opCreateEscrow c tid url b now
      · obtain ⟨c, tid, url, b, now, rfl⟩ := hc
        rw [countCreates_cons_ok_create rest hap, ih st3 hr3,
            p2 st c tid url b now st3 hap]
        omega
      · push_neg at hc
        rw [countCreates_cons_ok_other rest hap hc, ih st3 hr3,
            p3 st op st3 hr hap hc]

/-- Witness for C10: the empty state counts 0 escrows; creating increments
the count; a refund leaves it unchanged; a two-operation run counts its one
successful creation. -/
theorem C10_witness :
    get_task_count (emptyState demoToken) = 0 ∧
    get_task_count demo2 = get_task_count demo1 + 1 ∧
    get_task_count demo4 = get_task_count demo3 ∧
    get_task_count (runOps demo0
        [Op.opInitialize 10 11, Op.opCreateEscrow 2 tidA "u" 1000000 5]) =
      get_task_count demo0 + countCreates demo0
        [Op.opInitialize 10 11, Op.opCreateEscrow 2 tidA "u" 1000000 5] :=
  ⟨C10_task_count.1 demoToken,
   C10_task_count.2.1 demo1 2 tidA "u" 1000000 5 demo2 (by decide),
   C10_task_count.2.2.1 demo3 (Op.opRefund tidA) demo4 demo3_reachable
     (by decide) (by intro c t u2 b n; simp),
   C10_task_count.2.2.2
     [Op.opInitialize 10 11, Op.opCreateEscrow 2 tidA "u" 1000000 5]
     demo0 (Reachable.start demoToken)⟩

/-- C3 (spec-modelled): `set_paused` stores the flag and only works with
the admin key present (the admin signature itself is a host-level check);
while `paused` is true, each of the seven state-mutating operations fails
with `ContractPaused` before any other check, and the erroring call leaves
all state unchanged. -/
theorem C3_pause_gate (ps : PausedState) :
    (∀ v ps2, set_paused ps v = .ok ps2 →
      ps.core.admin.isSome = true ∧ ps2 = { ps with paused := v }) ∧
    (ps.core.admin.isSome = true →
      ∀ v, set_paused ps v = .ok { ps with paused := v }) ∧
    (ps.paused = true →
      (∀ c tid url b now,
        paused_create_escrow ps c tid url b now = .error .ContractPaused) ∧
      (∀ tid c,
        paused_assign_contributor ps tid c = .error .ContractPaused) ∧
      (∀ tid now, paused_complete_task ps tid now = .error .ContractPaused) ∧
      (∀ tid, paused_approve_completion ps tid = .error .ContractPaused) ∧
      (∀ p tid reason now,
        paused_dispute_task ps p tid reason now = .error .ContractPaused) ∧
      (∀ tid r,
        paused_resolve_dispute ps tid r = .error .ContractPaused) ∧
      (∀ tid, paused_refund ps tid = .error .ContractPaused)) := by
  refine ⟨?_, ?_, ?_⟩
  · intro v ps2 h
    unfold set_paused require_admin at h
    split at h
    · exact Except.noConfusion h
    next u heq =>
      split at heq
      · exact Except.noConfusion heq
      next a ha =>
        injection h with h2
        exact ⟨by simp [ha], h2.symm⟩
  · intro hadm v
    unfold set_paused
    rw [require_admin_ok hadm]
  · intro hp
    refine ⟨?_, ?_, ?_, ?_, ?_, ?_, ?_⟩ <;> intros <;>
      simp [paused_create_escrow, paused_assign_contributor,
            paused_complete_task, paused_approve_completion,
            paused_dispute_task, paused_resolve_dispute, paused_refund,
            withPauseGate, hp]

/-- Witness for C3: pausing from `demoPS` succeeds, and on the paused state
`demoPSPaused` all seven operations fail with `ContractPaused`. -/
theorem C3_witness :
    set_paused demoPS true = .ok { demoPS with paused := true } ∧
    paused_create_escrow demoPSPaused 2 tidA "u" 1000000 5 =
      .error .ContractPaused ∧
    paused_assign_contributor demoPSPaused tidA 3 = .error .ContractPaused ∧
    paused_complete_task demoPSPaused tidA 7 = .error .ContractPaused ∧
    paused_approve_completion demoPSPaused tidA = .error .ContractPaused ∧
    paused_dispute_task demoPSPaused 2 tidA "work disputed" 8 =
      .error .ContractPaused ∧
    paused_resolve_dispute demoPSPaused tidA .PayContributor =
      .error .ContractPaused ∧
    paused_refund demoPSPaused tidA = .error .ContractPaused :=
  ⟨(C3_pause_gate demoPS).2.1 (by decide) true,
   ((C3_pause_gate demoPSPaused).2.2 rfl).1 2 tidA "u" 1000000 5,
   ((C3_pause_gate demoPSPaused).2.2 rfl).2.1 tidA 3,
   ((C3_pause_gate demoPSPaused).2.2 rfl).2.2.1 tidA 7,
   ((C3_pause_gate demoPSPaused).2.2 rfl).2.2.2.1 tidA,
   ((C3_pause_gate demoPSPaused).2.2 rfl).2.2.2.2.1 2 tidA "work disputed" 8,
   ((C3_pause_gate demoPSPaused).2.2 rfl).2.2.2.2.2.1 tidA .PayContributor,
   ((C3_pause_gate demoPSPaused).2.2 rfl).2.2.2.2.2.2 tidA⟩

theorem withPauseGate_not_paused {ps : PausedState}
    (run : ContractState → Except Error ContractState)
    (hp : ps.paused = false) :
    withPauseGate ps run =
      match run ps.core with
      | .error err => .error err
      | .ok st2 => .ok { ps with core := st2 } := by
  unfold withPauseGate
  rw [hp]
  simp

/-- C4 (spec-modelled): with the escrow `Open`, the caller equal to the
creator, the amount valid (and, for a decrease, the remaining bounty at or
above the minimum), `increase_bounty` / `decrease_bounty` move exactly the
delta between the caller and the contract and update `bounty_amount` in
lock-step; otherwise they fail with `NotTaskCreator`, `InvalidTaskStatus`
or `InvalidAmount` respectively. -/
theorem C4_bounty_adjustment (ps : PausedState) (caller : Address)
    (tid : TaskId) (amt : Int) (e : TaskEscrow)
    (hp : ps.paused = false) (hini : is_initialized ps.core = true)
    (hlen : tid.length = 25)
    (hget : assocGet ps.core.escrows tid = some e) :
    (caller = e.creator → e.status = .Open → validate_amount amt = .ok () →
      amt ≤ getBalance ps.core.token caller →
      increase_bounty ps caller tid amt =
        .ok { ps with core := { ps.core with
          token := tokenTransfer ps.core.token caller contractAddress amt,
          escrows := (assocSet ps.core.escrows tid
            ({ e with bounty_amount := e.bounty_amount + amt })) } }) ∧
    (caller = e.creator → e.status = .Open → validate_amount amt = .ok () →
      100000 ≤ e.bounty_amount - amt →
      amt ≤ getBalance ps.core.token contractAddress →
      decrease_bounty ps caller tid amt =
        .ok { ps with core := { ps.core with
          token := tokenTransfer ps.core.token contractAddress caller amt,
          escrows := (assocSet ps.core.escrows tid
            ({ e with bounty_amount := e.bounty_amount - amt })) } }) ∧
    (caller ≠ e.creator →
      increase_bounty ps caller tid amt = .error .NotTaskCreator ∧
      decrease_bounty ps caller tid amt = .error .NotTaskCreator) ∧
    (caller = e.creator → e.status ≠ .Open →
      increase_bounty ps caller tid amt = .error .InvalidTaskStatus ∧
      decrease_bounty ps caller tid amt = .error .InvalidTaskStatus) ∧
    (caller = e.creator → e.status = .Open → amt < 100000 →
      increase_bounty ps caller tid amt = .error .InvalidAmount ∧
      decrease_bounty ps caller tid amt = .error .InvalidAmount) ∧
    (caller = e.creator → e.status = .Open → validate_amount amt = .ok () →
      e.bounty_amount - amt < 100000 →
      decrease_bounty ps caller tid amt = .error .InvalidAmount) := by
  have husdc : ps.core.usdcToken.isSome = true := (is_initialized_iff.mp hini).2
  have gateI : increase_bounty ps caller tid amt =
      match increase_bounty_core ps.core caller tid amt with
      | .error err => .error err
      | .ok st2 => .ok { ps with core := st2 } := by
    unfold increase_bounty; exact withPauseGate_not_paused _ hp
  have gateD : decrease_bounty ps caller tid amt =
      match decrease_bounty_core ps.core caller tid amt with
      | .error err => .error err
      | .ok st2 => .ok { ps with core := st2 } := by
    unfold decrease_bounty; exact withPauseGate_not_paused _ hp
  have hvcs := validate_contract_state_ok hini
  have hvtid := validate_task_id_ok hlen
  refine ⟨?_, ?_, ?_, ?_, ?_, ?_⟩
  · intro hcall hstat hvam hbal
    have hcore : increase_bounty_core ps.core caller tid amt =
        .ok { ps.core with
          token := tokenTransfer ps.core.token caller contractAddress amt,
          escrows := (assocSet ps.core.escrows tid
            ({ e with bounty_amount := e.bounty_amount + amt })) } := by
      unfold increase_bounty_core transfer_usdc_to_contract
      rw [hvcs, hvtid, hget]
      dsimp only
      rw [if_neg (by simp [hcall]), if_neg (by simp [hstat]), hvam]
      dsimp only
      rw [transfer_usdc_safe_ok_of hvam husdc hbal]
    rw [gateI, hcore]
  · intro hcall hstat hvam hrem hbal
    have hcore : decrease_bounty_core ps.core caller tid amt =
        .ok { ps.core with
          token := tokenTransfer ps.core.token contractAddress caller amt,
          escrows := (assocSet ps.core.escrows tid
            ({ e with bounty_amount := e.bounty_amount - amt })) } := by
      unfold decrease_bounty_core transfer_usdc_from_contract
      rw [hvcs, hvtid, hget]
      dsimp only
      rw [if_neg (by simp [hcall]), if_neg (by simp [hstat]), hvam]
      dsimp only
      rw [if_neg (by omega)]
      rw [transfer_usdc_safe_ok_of hvam husdc hbal]
    rw [gateD, hcore]
  · intro hcall
    have hcoreI : increase_bounty_core ps.core caller tid amt =
        .error .NotTaskCreator := by
      unfold increase_bounty_core
      rw [hvcs, hvtid, hget]
      dsimp only
      rw [if_pos hcall]
    have hcoreD : decrease_bounty_core ps.core caller tid amt =
        .error .NotTaskCreator := by
      unfold decrease_bounty_core
      rw [hvcs, hvtid, hget]
      dsimp only
      rw [if_pos hcall]
    constructor
    · rw [gateI, hcoreI]
    · rw [gateD, hcoreD]
  · intro hcall hstat
    have hcoreI : increase_bounty_core ps.core caller tid amt =
        .error .InvalidTaskStatus := by
      unfold increase_bounty_core
      rw [hvcs, hvtid, hget]
      dsimp only
      rw [if_neg (by simp [hcall]), if_pos hstat]
    have hcoreD : decrease_bounty_core ps.core caller tid amt =
        .error .InvalidTaskStatus := by
      unfold decrease_bounty_core
      rw [hvcs, hvtid, hget]
      dsimp only
      rw [if_neg (by simp [hcall]), if_pos hstat]
    constructor
    · rw [gateI, hcoreI]
    · rw [gateD, hcoreD]
  · intro hcall hstat hlow
    have hvam : validate_amount amt = .error .InvalidAmount :=
      validate_amount_err_low (Or.inr hlow)
    have hcoreI : increase_bounty_core ps.core caller tid amt =
        .error .InvalidAmount := by
      unfold increase_bounty_core
      rw [hvcs, hvtid, hget]
      dsimp only
      rw [if_neg (by simp [hcall]), if_neg (by simp [hstat]), hvam]
    have hcoreD : decrease_bounty_core ps.core caller tid amt =
        .error .InvalidAmount := by
      unfold decrease_bounty_core
      rw [hvcs, hvtid, hget]
      dsimp only
      rw [if_neg (by simp [hcall]), if_neg (by simp [hstat]), hvam]
    constructor
    · rw [gateI, hcoreI]
    · rw [gateD, hcoreD]
  · intro hcall hstat hvam hrem
    have hcoreD : decrease_bounty_core ps.core caller tid amt =
        .error .InvalidAmount := by
      unfold decrease_bounty_core
      rw [hvcs, hvtid, hget]
      dsimp only
      rw [if_neg (by simp [hcall]), if_neg (by simp [hstat]), hvam]
      dsimp only
      rw [if_pos hrem]
    rw [gateD, hcoreD]

/-- Witness for C4: on `demoOpenFunded` the creator (address 2) increases
the bounty by 200,000 moving the delta in, and a stranger (address 4) is
rejected with `NotTaskCreator`. -/
theorem C4_witness :
    increase_bounty demoPS 2 tidA 200000 =
      .ok { demoPS with core := { demoOpenFunded with
        token := tokenTransfer demoOpenFunded.token 2 contractAddress 200000,
        escrows := (assocSet demoOpenFunded.escrows tidA
          ({ newEscrow 2 tidA "u" 1000000 5 with
              bounty_amount :=
                (newEscrow 2 tidA "u" 1000000 5).bounty_amount +
                  200000 })) } } ∧
    increase_bounty demoPS 4 tidA 200000 = .error .NotTaskCreator :=
  ⟨(C4_bounty_adjustment demoPS 2 tidA 200000
      (newEscrow 2 tidA "u" 1000000 5) (by decide) (by decide) (by decide)
      (by decide)).1 (by decide) (by decide) (by decide) (by decide),
   ((C4_bounty_adjustment demoPS 4 tidA 200000
      (newEscrow 2 tidA "u" 1000000 5) (by decide) (by decide) (by decide)
      (by decide)).2.2.1 (by decide)).1⟩

end TaskEscrowContract
